import Mathlib

set_option maxHeartbeats 1000000
set_option maxRecDepth 4096

/- Shallow embedding of src/xodr/xml_to_dataclass_converter.py and
   src/xodr/xodr_dataclasses.py.

   Python floats are modelled as exact decimal fractions (the converter
   only parses and stores them, it performs no arithmetic on them), Python
   ints as Int,
   str as String.  Uncaught Python exceptions (KeyError from a mapping
   subscript, ValueError from int()/float()/strptime(), TypeError from
   iterating None) are modelled by the error side of Except.  The logger
   collaborator only records messages and never affects control flow, so it
   is dropped from the embedding.  ET.fromstring belongs to the excluded
   I/O layer; the embedding starts from the parsed element tree. -/

inductive PyErr : Type where
  | keyError (key : String)
  | valueError
  | typeError
deriving DecidableEq

def digitsToNat (cs : List Char) : Nat :=
  cs.foldl (fun n c => n * 10 + (c.toNat - 48)) 0

def allDigits (cs : List Char) : Bool :=
  cs.all (fun c => c.isDigit)

/-- Python int(str) on the decimal forms the source exercises:
an optional sign followed by digits. -/
def pyIntCore (cs : List Char) : Option Int :=
  match cs with
  | '-' :: rest => if allDigits rest && !rest.isEmpty then some (-(digitsToNat rest : Int)) else none
  | '+' :: rest => if allDigits rest && !rest.isEmpty then some ((digitsToNat rest : Int)) else none
  | _ => if allDigits cs && !cs.isEmpty then some ((digitsToNat cs : Int)) else none

def pyInt (s : String) : Except PyErr Int :=
  match pyIntCore s.data with
  | some n => Except.ok n
  | none => Except.error PyErr.valueError

/-- Python float values, as the exact decimal fraction
mantissa / 10 ^ exponent, kept unnormalised.  The converter only parses,
stores and structurally compares floats (it never computes with them), and
values parsed from the same attribute string share one representation, so
structural equality matches Python float equality as exercised here. -/
structure PyFloat where
  mantissa : Int
  exponent : Nat
deriving DecidableEq

/-- The float 0.0 used for the all-zero geometry defaults. -/
def pyFloatZero : PyFloat := { mantissa := 0, exponent := 0 }

/-- Python float(str) on the decimal forms the source exercises:
an optional sign, digits, and an optional fractional part. -/
def pyRatCore (cs : List Char) : Option PyFloat :=
  let ip := cs.takeWhile (fun c => c.isDigit)
  let rest := cs.dropWhile (fun c => c.isDigit)
  match rest with
  | [] => if ip.isEmpty then none else some { mantissa := (digitsToNat ip : Int), exponent := 0 }
  | '.' :: fp =>
    if allDigits fp && (!ip.isEmpty || !fp.isEmpty) then
      some { mantissa := (digitsToNat (ip ++ fp) : Int), exponent := fp.length }
    else none
  | _ => none

def pyFloatCore (cs : List Char) : Option PyFloat :=
  match cs with
  | '-' :: rest => (pyRatCore rest).map (fun r => { r with mantissa := -r.mantissa })
  | '+' :: rest => pyRatCore rest
  | _ => pyRatCore cs

def pyFloat (s : String) : Except PyErr PyFloat :=
  match pyFloatCore s.data with
  | some r => Except.ok r
  | none => Except.error PyErr.valueError

/-- Python bool(str): the truthiness of a string is "is it non-empty". -/
def pyBool (s : String) : Bool :=
  !s.isEmpty

structure PyDatetime where
  year : Nat
  month : Nat
  day : Nat
  hour : Nat
  minute : Nat
  second : Nat
deriving DecidableEq

/-- Python datetime.strptime on the one fixed format the source uses,
with fixed-width fields and basic range checks. -/
def strptime_iso (s : String) : Except PyErr PyDatetime :=
  match s.data with
  | [y1, y2, y3, y4, '-', m1, m2, '-', d1, d2, 'T', h1, h2, ':', n1, n2, ':', c1, c2] =>
    if allDigits [y1, y2, y3, y4, m1, m2, d1, d2, h1, h2, n1, n2, c1, c2] then
      let mo := digitsToNat [m1, m2]
      let da := digitsToNat [d1, d2]
      let ho := digitsToNat [h1, h2]
      let mi := digitsToNat [n1, n2]
      let se := digitsToNat [c1, c2]
      if 1 ≤ mo ∧ mo ≤ 12 ∧ 1 ≤ da ∧ da ≤ 31 ∧ ho ≤ 23 ∧ mi ≤ 59 ∧ se ≤ 59 then
        Except.ok { year := digitsToNat [y1, y2, y3, y4], month := mo, day := da,
                    hour := ho, minute := mi, second := se }
      else Except.error PyErr.valueError
    else Except.error PyErr.valueError
  | _ => Except.error PyErr.valueError

/- The element tree produced by xml.etree.ElementTree: tag, attribute
dictionary (as an association list in document order), child list, text. -/

inductive XMLElem : Type where
  | mk (tag : String) (attrib : List (String × String)) (children : List XMLElem) (text : Option String)

def XMLElem.tag : XMLElem → String
  | .mk t _ _ _ => t

def XMLElem.attrib : XMLElem → List (String × String)
  | .mk _ a _ _ => a

def XMLElem.children : XMLElem → List XMLElem
  | .mk _ _ c _ => c

def XMLElem.text : XMLElem → Option String
  | .mk _ _ _ t => t

/-- Optional attribute lookup: `k in e.attrib` / `e.attrib.get(k)`. -/
def getAttr? (e : XMLElem) (k : String) : Option String :=
  (e.attrib.find? (fun p => p.1 == k)).map (fun p => p.2)

/-- Subscript lookup `e.attrib[k]`, raising KeyError when absent. -/
def attribGet (e : XMLElem) (k : String) : Except PyErr String :=
  match getAttr? e k with
  | some v => Except.ok v
  | none => Except.error (PyErr.keyError k)

def hasAttr (e : XMLElem) (k : String) : Bool :=
  (getAttr? e k).isSome

/-- findall("./t"): all direct children with the given tag, in order. -/
def findall1 (e : XMLElem) (t : String) : List XMLElem :=
  e.children.filter (fun c => c.tag == t)

/-- find("./t"): the first direct child with the given tag. -/
def find1 (e : XMLElem) (t : String) : Option XMLElem :=
  (findall1 e t).head?

/-- findall("./t1/t2"): two-level path, document order. -/
def findall2 (e : XMLElem) (t1 t2 : String) : List XMLElem :=
  (findall1 e t1).flatMap (fun c => findall1 c t2)

/-- find("./t1/t2"): first match of the two-level path. -/
def find2 (e : XMLElem) (t1 t2 : String) : Option XMLElem :=
  (findall2 e t1 t2).head?

/- The dataclasses of src/xodr/xodr_dataclasses.py.  Python dataclass
annotations are not enforced at run time; XODRRoad.lanes and
XODRRoadLanes.laneSection are given Option type because the filter engine
explicitly checks them against None. -/

structure XODRControllerControl where
  signalId : Int
  type : String
deriving DecidableEq

structure XODRController where
  id : Int
  name : String
  sequence : Int
  controls : List XODRControllerControl
deriving DecidableEq

structure XODRJunctionController where
  id : Int
  type : Int
  sequence : Int
deriving DecidableEq

structure XODRJunctionConnectionLaneLink where
  fromId : Int
  toId : Int
deriving DecidableEq

structure XODRJunctionConnection where
  id : Int
  incomingRoad : Int
  connectingRoad : Int
  contactPoint : String
  laneLinks : List XODRJunctionConnectionLaneLink
deriving DecidableEq

structure XODRUserDataVectorJunction where
  junctionId : String
deriving DecidableEq

structure XODRUserDataVectorLane where
  sOffset : PyFloat
  laneId : String
  travelDir : String
deriving DecidableEq

structure XODRUserDataVectorScene where
  program : String
  version : String
deriving DecidableEq

structure XODRUserDataVectorSignal where
  signalId : String
deriving DecidableEq

structure XODRUserDataVectorRoad where
  corner : String
deriving DecidableEq

structure XODRUserData where
  vectorJunction : Option XODRUserDataVectorJunction
  vectorScene : Option XODRUserDataVectorScene
  vectorRoad : Option XODRUserDataVectorRoad
  vectorLanes : List XODRUserDataVectorLane
  vectorSignals : List XODRUserDataVectorSignal
deriving DecidableEq

structure XODRJunction where
  id : Int
  name : String
  userData : Option XODRUserData
  connections : List XODRJunctionConnection
  controllers : List XODRJunctionController
deriving DecidableEq

structure XODRGeoReference where
  text : String
deriving DecidableEq

structure XODRHeader where
  revMajor : Int
  revMinor : Int
  version : Int
  date : PyDatetime
  north : PyFloat
  south : PyFloat
  east : PyFloat
  west : PyFloat
  vendor : String
  geoReference : XODRGeoReference
  userData : XODRUserData
  name : String := ""
deriving DecidableEq

structure XODRRoadLinkPredSucc where
  elementType : String
  elementId : Int
  contactPoint : Option String
deriving DecidableEq

structure XODRRoadLink where
  predecessor : Option XODRRoadLinkPredSucc
  successor : Option XODRRoadLinkPredSucc
deriving DecidableEq

structure XODRRoadTypeSpeed where
  max : Int
  unit : String
deriving DecidableEq

structure XODRRoadType where
  s : PyFloat
  type : String
  speed : XODRRoadTypeSpeed
deriving DecidableEq

inductive XODRRoadPlanViewGeometryLine : Type where
  | mk
deriving DecidableEq

structure XODRRoadPlanViewGeometryArc where
  curvature : PyFloat
deriving DecidableEq

structure XODRRoadPlanViewGeometry where
  s : PyFloat
  x : PyFloat
  y : PyFloat
  hdg : PyFloat
  length : PyFloat
  line : Option XODRRoadPlanViewGeometryLine
  arc : Option XODRRoadPlanViewGeometryArc
deriving DecidableEq

structure XODR_SABCD where
  s : PyFloat
  a : PyFloat
  b : PyFloat
  c : PyFloat
  d : PyFloat
deriving DecidableEq

structure XODRRoadElevationProfile where
  elevations : List XODR_SABCD
deriving DecidableEq

structure XODRRoadLateralProfile where
  superelevations : List XODR_SABCD
deriving DecidableEq

structure XODRRoadPlanView where
  geometry : List XODRRoadPlanViewGeometry
deriving DecidableEq

structure XODRRoadLaneSectionLCRLaneWidth where
  sOffset : PyFloat
  a : PyFloat
  b : PyFloat
  c : PyFloat
  d : PyFloat
deriving DecidableEq

structure XODRRoadLaneSectionLCRLaneRoadMark where
  sOffset : PyFloat
  type : String
  material : String
  color : Option String
  laneChange : String
  width : Option PyFloat
deriving DecidableEq

structure XODRRoadLaneSectionLCRLaneLinkPredecessorSuccessor where
  id : Int
deriving DecidableEq

structure XODRRoadLaneSectionLCRLaneLink where
  predecessor : Option XODRRoadLaneSectionLCRLaneLinkPredecessorSuccessor
  successor : Option XODRRoadLaneSectionLCRLaneLinkPredecessorSuccessor
deriving DecidableEq

structure XODRRoadLaneSectionLCRLane where
  id : Int
  type : String
  level : Bool
  userData : XODRUserData
  link : XODRRoadLaneSectionLCRLaneLink
  widths : List XODRRoadLaneSectionLCRLaneWidth
  roadMarks : List XODRRoadLaneSectionLCRLaneRoadMark
deriving DecidableEq

structure XODRRoadLaneSectionLCR where
  lanes : List XODRRoadLaneSectionLCRLane
deriving DecidableEq

structure XODRRoadLaneSection where
  s : PyFloat
  left : Option XODRRoadLaneSectionLCR
  center : Option XODRRoadLaneSectionLCR
  right : Option XODRRoadLaneSectionLCR
deriving DecidableEq

structure XODRRoadLanes where
  laneSection : Option XODRRoadLaneSection
  laneOffset : List XODR_SABCD
deriving DecidableEq

structure XODRRoadSignalValidity where
  fromLane : Int
  toLane : Int
deriving DecidableEq

structure XODRRoadSignalReference where
  name : Option String
  id : Int
  s : PyFloat
  t : PyFloat
  zOffset : Option PyFloat
  hOffset : Option PyFloat
  roll : Option PyFloat
  pitch : Option PyFloat
  orientation : String
  dynamic : Option String
  country : Option String
  type : Option Int
  subtype : Option Int
  value : Option PyFloat
  height : Option PyFloat
  width : Option PyFloat
  validity : XODRRoadSignalValidity
  userData : XODRUserData
  text : Option String
deriving DecidableEq

structure XODRRoadObjectsElement where
  id : Int
  name : String
  s : PyFloat
  t : PyFloat
  zOffset : PyFloat
  hdg : PyFloat
  roll : PyFloat
  pitch : PyFloat
  orientation : String
  type : String
  height : Option PyFloat
  width : PyFloat
  length : PyFloat
deriving DecidableEq

structure XODRRoadObjects where
  elements : List XODRRoadObjectsElement
deriving DecidableEq

structure XODRRoad where
  name : String
  length : PyFloat
  id : Int
  junction : Int
  link : XODRRoadLink
  type : Option XODRRoadType
  planView : XODRRoadPlanView
  elevationProfile : XODRRoadElevationProfile
  lateralProfile : XODRRoadLateralProfile
  lanes : Option XODRRoadLanes
  objects : Option XODRRoadObjects
  signals : List XODRRoadSignalReference
  signalReferences : List XODRRoadSignalReference
deriving DecidableEq

structure OpenDRIVE where
  header : XODRHeader
  roads : List XODRRoad
  controllers : List XODRController
  junctions : List XODRJunction
deriving DecidableEq

/- __find_header_data -/

def find_header_data (root : XMLElem) : Except PyErr (Option XODRHeader) := do
  match find1 root "header" with
  | none => return none
  | some xml_header => do
    let rev_major ← attribGet xml_header "revMajor"
    let rev_minor ← attribGet xml_header "revMinor"
    let version ← attribGet xml_header "version"
    let date ← attribGet xml_header "date"
    let north ← attribGet xml_header "north"
    let south ← attribGet xml_header "south"
    let east ← attribGet xml_header "east"
    let west ← attribGet xml_header "west"
    let vendor ← attribGet xml_header "vendor"
    let name ← attribGet xml_header "name"
    match find1 xml_header "geoReference" with
    | none => return none
    | some xml_geo_reference =>
      match xml_geo_reference.text with
      | none => return none
      | some xml_geo_reference_text =>
        match find1 xml_header "userData" with
        | none => return none
        | some xml_user_data =>
          match find1 xml_user_data "vectorScene" with
          | none => return none
          | some xml_user_data_vector_scene => do
            let xml_program ← attribGet xml_user_data_vector_scene "program"
            let xml_version ← attribGet xml_user_data_vector_scene "version"
            let rmj ← pyInt rev_major
            let rmn ← pyInt rev_minor
            let ver ← pyInt version
            let dt ← strptime_iso date
            let no ← pyFloat north
            let so ← pyFloat south
            let ea ← pyFloat east
            let we ← pyFloat west
            return some {
              revMajor := rmj, revMinor := rmn, version := ver, date := dt,
              north := no, south := so, east := ea, west := we, vendor := vendor,
              geoReference := { text := xml_geo_reference_text },
              userData := {
                vectorJunction := none,
                vectorScene := some { program := xml_program, version := xml_version },
                vectorSignals := [], vectorLanes := [], vectorRoad := none },
              name := name }

/- The (s, a, b, c, d) reading loop shared verbatim by the lane offset,
elevation and super-elevation loops of the source. -/

def build_sabcd_list : List XMLElem → List XODR_SABCD → Except PyErr (List XODR_SABCD)
  | [], acc => Except.ok acc
  | elevation :: rest, acc => do
    let s ← attribGet elevation "s"
    let a ← attribGet elevation "a"
    let b ← attribGet elevation "b"
    let c ← attribGet elevation "c"
    let d ← attribGet elevation "d"
    let sv ← pyFloat s
    let av ← pyFloat a
    let bv ← pyFloat b
    let cv ← pyFloat c
    let dv ← pyFloat d
    build_sabcd_list rest (acc ++ [{ s := sv, a := av, b := bv, c := cv, d := dv }])

/- __get_road_elevation_profile.  The source iterates
`for elevation in xml_road_elevation_profile.find(path="./elevation")`:
find returns the FIRST elevation element (or None), and iterating an
element iterates its child elements, so the loop runs over the children of
the first elevation element; iterating None raises TypeError. -/

def get_road_elevation_profile (road : XMLElem) : Except PyErr (Option XODRRoadElevationProfile) := do
  match find1 road "elevationProfile" with
  | none => return none
  | some xml_road_elevation_profile =>
    match find1 xml_road_elevation_profile "elevation" with
    | none => Except.error PyErr.typeError
    | some elevation_elem => do
      let xs ← build_sabcd_list elevation_elem.children []
      return some { elevations := xs }

/- __get_road_lateral_profile: reads from the same elevationProfile subtree,
with the same find-then-iterate-children pattern on superelevation. -/

def get_road_lateral_profile (road : XMLElem) : Except PyErr (Option XODRRoadLateralProfile) := do
  match find1 road "elevationProfile" with
  | none => return none
  | some xml_road_lateral_profile =>
    match find1 xml_road_lateral_profile "superelevation" with
    | none => return some { superelevations := [] }
    | some superelevation_elem => do
      let xs ← build_sabcd_list superelevation_elem.children []
      return some { superelevations := xs }

/- __get_road_plan_view.  The line/arc variants are only set when the line
or arc child element itself has child elements (len on an element counts
children), and the curvature attribute is read from those children. -/

def build_geometry_arc : List XMLElem → Option XODRRoadPlanViewGeometryArc →
    Except PyErr (Option XODRRoadPlanViewGeometryArc)
  | [], a => Except.ok a
  | arc :: rest, _ => do
    let curv ← attribGet arc "curvature"
    let cv ← pyFloat curv
    build_geometry_arc rest (some { curvature := cv })

def build_geometry (geometry : XMLElem) : Except PyErr XODRRoadPlanViewGeometry := do
  let g0 : XODRRoadPlanViewGeometry :=
    { s := pyFloatZero, x := pyFloatZero, y := pyFloatZero, hdg := pyFloatZero,
      length := pyFloatZero, line := none, arc := none }
  let g1 ← if hasAttr geometry "s" then do
      let s ← attribGet geometry "s"
      let x ← attribGet geometry "x"
      let y ← attribGet geometry "y"
      let hdg ← attribGet geometry "hdg"
      let length ← attribGet geometry "length"
      let sv ← pyFloat s
      let xv ← pyFloat x
      let yv ← pyFloat y
      let hv ← pyFloat hdg
      let lv ← pyFloat length
      pure { g0 with s := sv, x := xv, y := yv, hdg := hv, length := lv }
    else pure g0
  let lines := find1 geometry "line"
  let arcs := find1 geometry "arc"
  let g2 := match lines with
    | some l => if l.children.length ≠ 0 then { g1 with line := some XODRRoadPlanViewGeometryLine.mk } else g1
    | none => g1
  let g3 ← match arcs with
    | some a =>
      if a.children.length ≠ 0 then do
        let arcv ← build_geometry_arc a.children none
        pure { g2 with arc := arcv }
      else pure g2
    | none => pure g2
  return g3

def geometries_go : List XMLElem → List XODRRoadPlanViewGeometry →
    Except PyErr (List XODRRoadPlanViewGeometry)
  | [], acc => Except.ok acc
  | geometry :: rest, acc => do
    let g ← build_geometry geometry
    geometries_go rest (acc ++ [g])

def get_road_plan_view (road : XMLElem) : Except PyErr (Option XODRRoadPlanView) := do
  match find1 road "planView" with
  | none => return none
  | some xml_road_plan_view =>
    if xml_road_plan_view.children.length = 0 then return none
    else do
      let geos ← geometries_go xml_road_plan_view.children []
      return some { geometry := geos }

/- __get_road_type -/

def get_road_type (road : XMLElem) : Except PyErr (Option XODRRoadType) := do
  match find1 road "type" with
  | none => return none
  | some xml_road_type => do
    let s ← attribGet xml_road_type "s"
    let road_type ← attribGet xml_road_type "type"
    match find1 xml_road_type "speed" with
    | none => return none
    | some xml_speed => do
      let xml_speed_max ← attribGet xml_speed "max"
      let xml_speed_unit ← attribGet xml_speed "unit"
      let sv ← pyFloat s
      let mx ← pyInt xml_speed_max
      return some { s := sv, type := road_type, speed := { max := mx, unit := xml_speed_unit } }

/- __get_road_link, written with explicit matches to mirror the
straight-line variable assignments of the source. -/

def link_pred_fields (road : XMLElem) : Except PyErr (String × String × String) :=
  match find2 road "link" "predecessor" with
  | none => Except.ok ("", "", "")
  | some xml_road_link_pred =>
    match attribGet xml_road_link_pred "elementType" with
    | Except.error e => Except.error e
    | Except.ok et =>
      match attribGet xml_road_link_pred "elementId" with
      | Except.error e => Except.error e
      | Except.ok eid =>
        Except.ok (et, eid,
          match getAttr? xml_road_link_pred "contactPoint" with
          | some v => v
          | none => "")

/-- Returns (succ elementType, succ elementId, predecessor contact-point
variable after the successor block): the source assigns the successor's
contactPoint attribute to the predecessor contact-point variable. -/
def link_succ_fields (road : XMLElem) (pred_contact0 : String) :
    Except PyErr (String × String × String) :=
  match find2 road "link" "successor" with
  | none => Except.ok ("", "", pred_contact0)
  | some xml_road_link_succ =>
    match attribGet xml_road_link_succ "elementType" with
    | Except.error e => Except.error e
    | Except.ok et =>
      match attribGet xml_road_link_succ "elementId" with
      | Except.error e => Except.error e
      | Except.ok eid =>
        Except.ok (et, eid,
          match getAttr? xml_road_link_succ "contactPoint" with
          | some v => v
          | none => pred_contact0)

def link_side_build (et eid cp : String) : Except PyErr (Option XODRRoadLinkPredSucc) :=
  if eid ≠ "" then
    match pyInt eid with
    | Except.error e => Except.error e
    | Except.ok idv =>
      Except.ok (some { elementType := et, elementId := idv,
                        contactPoint := if cp ≠ "" then some cp else none })
  else Except.ok none

def get_road_link (road : XMLElem) : Except PyErr XODRRoadLink :=
  match link_pred_fields road with
  | Except.error e => Except.error e
  | Except.ok (pred_et, pred_id, pred_cp0) =>
    match link_succ_fields road pred_cp0 with
    | Except.error e => Except.error e
    | Except.ok (succ_et, succ_id, pred_cp) =>
      match link_side_build pred_et pred_id pred_cp with
      | Except.error e => Except.error e
      | Except.ok predecessor =>
        -- the successor contact-point variable is initialised to "" and
        -- never reassigned in the source
        match link_side_build succ_et succ_id "" with
        | Except.error e => Except.error e
        | Except.ok successor =>
          Except.ok { predecessor := predecessor, successor := successor }

/- __get_road_objects -/

def build_objects_elements : List XMLElem → List XODRRoadObjectsElement →
    Except PyErr (List XODRRoadObjectsElement)
  | [], acc => Except.ok acc
  | obj :: rest, acc => do
    let hdg ← do let v ← attribGet obj "hdg"; pyFloat v
    let height ← match getAttr? obj "height" with
      | some v => do let f ← pyFloat v; pure (some f)
      | none => pure none
    let idv ← do let v ← attribGet obj "id"; pyInt v
    let len ← do let v ← attribGet obj "length"; pyFloat v
    let name ← attribGet obj "name"
    let orientation ← attribGet obj "orientation"
    let pitch ← do let v ← attribGet obj "pitch"; pyFloat v
    let roll ← do let v ← attribGet obj "roll"; pyFloat v
    let sv ← do let v ← attribGet obj "s"; pyFloat v
    let tv ← do let v ← attribGet obj "t"; pyFloat v
    let ty ← attribGet obj "type"
    let wid ← do let v ← attribGet obj "width"; pyFloat v
    let zo ← do let v ← attribGet obj "zOffset"; pyFloat v
    build_objects_elements rest (acc ++ [{
      id := idv, name := name, s := sv, t := tv, zOffset := zo, hdg := hdg,
      roll := roll, pitch := pitch, orientation := orientation, type := ty,
      height := height, width := wid, length := len }])

def get_road_objects (road : XMLElem) : Except PyErr (Option XODRRoadObjects) := do
  match find1 road "objects" with
  | none => return none
  | some xml_objects => do
    let els ← build_objects_elements (findall1 xml_objects "object") []
    return some { elements := els }

/- __get_road_signals.  Note the source reads the t attribute into the
variable named s and the s attribute into the variable named t.  A signal
with a missing userData or validity subtree truncates the list, returning
what has been built so far. -/

def build_vector_signals (elems : List XMLElem) : List XODRUserDataVectorSignal :=
  elems.foldl (fun acc vector_signal =>
    match getAttr? vector_signal "signalId" with
    | some v => acc ++ [{ signalId := v }]
    | none => acc) []

def build_signal (signal : XMLElem) : Except PyErr (Option XODRRoadSignalReference) := do
  let signal_id ← attribGet signal "id"
  let s ← attribGet signal "t"
  let t ← attribGet signal "s"
  let orientation ← attribGet signal "orientation"
  match find1 signal "userData" with
  | none => return none
  | some xml_user_data => do
    let xodr_vector_signals := build_vector_signals (findall1 xml_user_data "vectorSignal")
    match find1 signal "validity" with
    | none => return none
    | some xml_validity => do
      let from_lane ← attribGet xml_validity "fromLane"
      let from_lane_v ← pyInt from_lane
      let to_lane ← attribGet xml_validity "toLane"
      let to_lane_v ← pyInt to_lane
      let idv ← pyInt signal_id
      let sv ← pyFloat s
      let tv ← pyFloat t
      let sig0 : XODRRoadSignalReference := {
        id := idv, s := sv, t := tv, orientation := orientation,
        country := none, dynamic := none, height := none, hOffset := none,
        name := none, pitch := none, roll := none, subtype := none,
        text := none, type := none, value := none, width := none, zOffset := none,
        userData := { vectorJunction := none, vectorLanes := [], vectorRoad := none,
                      vectorScene := none, vectorSignals := xodr_vector_signals },
        validity := { fromLane := from_lane_v, toLane := to_lane_v } }
      let sig1 := match getAttr? signal "country" with
        | some v => { sig0 with country := some v }
        | none => sig0
      let sig2 := match getAttr? signal "dynamic" with
        | some v => { sig1 with dynamic := some v }
        | none => sig1
      let sig3 ← match getAttr? signal "height" with
        | some v => do pure { sig2 with height := some (← pyFloat v) }
        | none => pure sig2
      let sig4 ← match getAttr? signal "hOffset" with
        | some v => do pure { sig3 with hOffset := some (← pyFloat v) }
        | none => pure sig3
      let sig5 := match getAttr? signal "name" with
        | some v => { sig4 with name := some v }
        | none => sig4
      let sig6 ← match getAttr? signal "pitch" with
        | some v => do pure { sig5 with pitch := some (← pyFloat v) }
        | none => pure sig5
      let sig7 ← match getAttr? signal "roll" with
        | some v => do pure { sig6 with roll := some (← pyFloat v) }
        | none => pure sig6
      let sig8 ← match getAttr? signal "subtype" with
        | some v => do pure { sig7 with subtype := some (← pyInt v) }
        | none => pure sig7
      let sig9 ← match getAttr? signal "value" with
        | some v => do pure { sig8 with value := some (← pyFloat v) }
        | none => pure sig8
      let sig10 ← match getAttr? signal "width" with
        | some v => do pure { sig9 with width := some (← pyFloat v) }
        | none => pure sig9
      let sig11 ← match getAttr? signal "type" with
        | some v => do pure { sig10 with type := some (← pyInt v) }
        | none => pure sig10
      let sig12 ← match getAttr? signal "zOffset" with
        | some v => do pure { sig11 with zOffset := some (← pyFloat v) }
        | none => pure sig11
      let sig13 := match getAttr? signal "text" with
        | some v => { sig12 with text := some v }
        | none => sig12
      return some sig13

def signals_go : List XMLElem → List XODRRoadSignalReference →
    Except PyErr (List XODRRoadSignalReference)
  | [], acc => Except.ok acc
  | signal :: rest, acc => do
    match (← build_signal signal) with
    | none => return acc
    | some sg => signals_go rest (acc ++ [sg])

def get_road_signals (road : XMLElem) ( is_reference : Bool) :
    Except PyErr (List XODRRoadSignalReference) :=
  let xml_signals :=
    if ¬ is_reference then findall2 road "signals" "signal"
    else findall2 road "signals" "signalReference"
  if xml_signals.length = 0 then Except.ok []
  else signals_go xml_signals []

/- __get_lane_section_lane_info.  The loop body over one lane element is
factored out; a lane with no userData subtree makes the whole group builder
return None.  build_lcr_lane is written with explicit matches to mirror the
straight-line statements of the source. -/

def build_vector_lanes : List XMLElem → List XODRUserDataVectorLane →
    Except PyErr (List XODRUserDataVectorLane)
  | [], acc => Except.ok acc
  | elem :: rest, acc =>
    match attribGet elem "sOffset" with
    | Except.error e => Except.error e
    | Except.ok so =>
      match pyFloat so with
      | Except.error e => Except.error e
      | Except.ok sov =>
        match attribGet elem "laneId" with
        | Except.error e => Except.error e
        | Except.ok lid =>
          match attribGet elem "travelDir" with
          | Except.error e => Except.error e
          | Except.ok td =>
            build_vector_lanes rest (acc ++ [{ sOffset := sov, laneId := lid, travelDir := td }])

def build_lane_widths : List XMLElem → List XODRRoadLaneSectionLCRLaneWidth →
    Except PyErr (List XODRRoadLaneSectionLCRLaneWidth)
  | [], acc => Except.ok acc
  | elem :: rest, acc => do
    let so ← do let v ← attribGet elem "sOffset"; pyFloat v
    let a ← do let v ← attribGet elem "a"; pyFloat v
    let b ← do let v ← attribGet elem "b"; pyFloat v
    let c ← do let v ← attribGet elem "c"; pyFloat v
    let d ← do let v ← attribGet elem "d"; pyFloat v
    build_lane_widths rest (acc ++ [{ sOffset := so, a := a, b := b, c := c, d := d }])

def build_road_marks : List XMLElem → List XODRRoadLaneSectionLCRLaneRoadMark →
    Except PyErr (List XODRRoadLaneSectionLCRLaneRoadMark)
  | [], acc => Except.ok acc
  | elem :: rest, acc => do
    let so ← do let v ← attribGet elem "sOffset"; pyFloat v
    let ty ← attribGet elem "type"
    let mat ← attribGet elem "material"
    let lc ← attribGet elem "laneChange"
    let m0 : XODRRoadLaneSectionLCRLaneRoadMark :=
      { sOffset := so, type := ty, material := mat, color := none, laneChange := lc, width := none }
    let m1 := match getAttr? elem "color" with
      | some v => { m0 with color := some v }
      | none => m0
    let m2 ← match getAttr? elem "width" with
      | some v => do pure { m1 with width := some (← pyFloat v) }
      | none => pure m1
    build_road_marks rest (acc ++ [m2])

def build_lane_link (lcr_lane : XMLElem) : Except PyErr XODRRoadLaneSectionLCRLaneLink :=
  match find1 lcr_lane "link" with
  | none => Except.ok { predecessor := none, successor := none }
  | some xml_link =>
    match (match find1 xml_link "predecessor" with
           | none => Except.ok none
           | some xml_link_pred =>
             match attribGet xml_link_pred "id" with
             | Except.error e => Except.error e
             | Except.ok pid =>
               match pyInt pid with
               | Except.error e => Except.error e
               | Except.ok pv => Except.ok (some ({ id := pv } : XODRRoadLaneSectionLCRLaneLinkPredecessorSuccessor))) with
    | Except.error e => Except.error e
    | Except.ok predv =>
      match (match find1 xml_link "successor" with
             | none => Except.ok none
             | some xml_link_succ =>
               match attribGet xml_link_succ "id" with
               | Except.error e => Except.error e
               | Except.ok sid =>
                 match pyInt sid with
                 | Except.error e => Except.error e
                 | Except.ok sv => Except.ok (some ({ id := sv } : XODRRoadLaneSectionLCRLaneLinkPredecessorSuccessor))) with
      | Except.error e => Except.error e
      | Except.ok succv => Except.ok { predecessor := predv, successor := succv }

def build_lcr_lane (lcr_lane : XMLElem) : Except PyErr (Option XODRRoadLaneSectionLCRLane) :=
  match attribGet lcr_lane "id" with
  | Except.error e => Except.error e
  | Except.ok lane_id =>
    match attribGet lcr_lane "type" with
    | Except.error e => Except.error e
    | Except.ok lane_type =>
      match attribGet lcr_lane "level" with
      | Except.error e => Except.error e
      | Except.ok level =>
        match find1 lcr_lane "userData" with
        | none => Except.ok none
        | some xml_user_data =>
          match build_vector_lanes (findall1 xml_user_data "vectorLanes") [] with
          | Except.error e => Except.error e
          | Except.ok xodr_vector_lanes =>
            match build_lane_widths (findall1 lcr_lane "width") [] with
            | Except.error e => Except.error e
            | Except.ok xodr_widths =>
              match build_road_marks (findall1 lcr_lane "roadMark") [] with
              | Except.error e => Except.error e
              | Except.ok road_marks =>
                match build_lane_link lcr_lane with
                | Except.error e => Except.error e
                | Except.ok lane_link =>
                  match pyInt lane_id with
                  | Except.error e => Except.error e
                  | Except.ok idv =>
                    Except.ok (some {
                      id := idv, type := lane_type, level := pyBool level,
                      userData := { vectorJunction := none, vectorLanes := xodr_vector_lanes,
                                    vectorRoad := none, vectorScene := none, vectorSignals := [] },
                      link := lane_link, widths := xodr_widths, roadMarks := road_marks })

def lanes_go : List XMLElem → List XODRRoadLaneSectionLCRLane →
    Except PyErr (Option (List XODRRoadLaneSectionLCRLane))
  | [], acc => Except.ok (some acc)
  | lcr_lane :: rest, acc => do
    match (← build_lcr_lane lcr_lane) with
    | none => return none
    | some lv => lanes_go rest (acc ++ [lv])

def get_lane_section_lane_info (lane : XMLElem) : Except PyErr (Option XODRRoadLaneSectionLCR) := do
  match (← lanes_go (findall1 lane "lane") []) with
  | none => return none
  | some ls => return some { lanes := ls }

/- __get_road_lane_section: the left/center/right results are assigned as
returned, so a failing group is stored as None rather than aborting. -/

def get_road_lane_section (xml_road_lanes : XMLElem) : Except PyErr (Option XODRRoadLaneSection) := do
  match find1 xml_road_lanes "laneSection" with
  | none => return none
  | some xml_lane_section => do
    let s ← attribGet xml_lane_section "s"
    let sv ← pyFloat s
    let left ← match find1 xml_lane_section "left" with
      | none => pure none
      | some l => get_lane_section_lane_info l
    let center ← match find1 xml_lane_section "center" with
      | none => pure none
      | some ce => get_lane_section_lane_info ce
    let right ← match find1 xml_lane_section "right" with
      | none => pure none
      | some r => get_lane_section_lane_info r
    return some { s := sv, left := left, center := center, right := right }

/- __get_road_lane_offsets: reads (s,a,b,c,d) from each laneOffset element. -/

def get_road_lane_offsets (xml_road_lanes : XMLElem) : Except PyErr (List XODR_SABCD) := do
  let xml_lane_offsets := findall1 xml_road_lanes "laneOffset"
  if xml_lane_offsets.length = 0 then return []
  else build_sabcd_list xml_lane_offsets []

/- __get_road_lanes -/

def get_road_lanes (road : XMLElem) : Except PyErr (Option XODRRoadLanes) := do
  match find1 road "lanes" with
  | none => return none
  | some xml_road_lanes => do
    let offs ← get_road_lane_offsets xml_road_lanes
    if offs.length = 0 then return none
    else do
      match (← get_road_lane_section xml_road_lanes) with
      | none => return none
      | some sec => return some { laneOffset := offs, laneSection := some sec }

/- __find_list_of_roads.  When an individual road fails to build, the loop
RETURNS the roads built so far (truncation); the caller only treats an
empty list as failure.  The name/id/length/junction None checks of the
source are unreachable because the attribute subscript raises KeyError. -/

def build_road (road : XMLElem) : Except PyErr (Option XODRRoad) := do
  let name ← attribGet road "name"
  let road_id ← attribGet road "id"
  let length ← attribGet road "length"
  let junction ← attribGet road "junction"
  let xodr_road_link ← get_road_link road
  let xodr_road_type ← get_road_type road
  match (← get_road_plan_view road) with
  | none => return none
  | some xodr_road_plan_view => do
    match (← get_road_elevation_profile road) with
    | none => return none
    | some xodr_road_elevation_profile => do
      match (← get_road_lateral_profile road) with
      | none => return none
      | some xodr_road_lateral_profile => do
        match (← get_road_lanes road) with
        | none => return none
        | some xodr_road_lanes => do
          let xodr_road_signals ← get_road_signals road false
          let xodr_road_signal_references ← get_road_signals road true
          let xodr_road_objects ← get_road_objects road
          let idv ← pyInt road_id
          let jv ← pyInt junction
          let lenv ← pyFloat length
          return some {
            elevationProfile := xodr_road_elevation_profile, id := idv,
            junction := jv, lanes := some xodr_road_lanes,
            lateralProfile := xodr_road_lateral_profile, length := lenv,
            link := xodr_road_link, name := name, objects := xodr_road_objects,
            planView := xodr_road_plan_view,
            signalReferences := xodr_road_signal_references,
            signals := xodr_road_signals, type := xodr_road_type }

def roads_go : List XMLElem → List XODRRoad → Except PyErr (List XODRRoad)
  | [], acc => Except.ok acc
  | road :: rest, acc => do
    match (← build_road road) with
    | none => return acc
    | some rv => roads_go rest (acc ++ [rv])

def find_list_of_roads (root : XMLElem) : Except PyErr (List XODRRoad) :=
  let list_of_xml_roads := findall1 root "road"
  if list_of_xml_roads.length = 0 then Except.ok []
  else roads_go list_of_xml_roads []

/- __find_list_of_controllers.  The None checks of the source are
unreachable (subscript raises KeyError), so the truncation paths never
trigger; the loops are ordinary accumulations. -/

def controls_go : List XMLElem → List XODRControllerControl →
    Except PyErr (List XODRControllerControl)
  | [], acc => Except.ok acc
  | control :: rest, acc => do
    let signal_id ← attribGet control "signalId"
    let control_type ← attribGet control "type"
    let sv ← pyInt signal_id
    controls_go rest (acc ++ [{ signalId := sv, type := control_type }])

def controllers_go : List XMLElem → List XODRController → Except PyErr (List XODRController)
  | [], acc => Except.ok acc
  | controller :: rest, acc => do
    let name ← attribGet controller "name"
    let controller_id ← attribGet controller "id"
    let sequence ← attribGet controller "sequence"
    let control_list ← controls_go (findall1 controller "control") []
    let idv ← pyInt controller_id
    let sq ← pyInt sequence
    controllers_go rest (acc ++ [{ id := idv, name := name, sequence := sq, controls := control_list }])

def find_list_of_controllers (root : XMLElem) : Except PyErr (List XODRController) :=
  let list_of_xml_controllers := findall1 root "controller"
  if list_of_xml_controllers.length = 0 then Except.ok []
  else controllers_go list_of_xml_controllers []

/- __find_list_of_junctions -/

def lanelinks_go : List XMLElem → List XODRJunctionConnectionLaneLink →
    Except PyErr (List XODRJunctionConnectionLaneLink)
  | [], acc => Except.ok acc
  | lanelink :: rest, acc => do
    let fv ← attribGet lanelink "from"
    let tv ← attribGet lanelink "to"
    let fi ← pyInt fv
    let ti ← pyInt tv
    lanelinks_go rest (acc ++ [{ fromId := fi, toId := ti }])

def connections_go : List XMLElem → List XODRJunctionConnection →
    Except PyErr (List XODRJunctionConnection)
  | [], acc => Except.ok acc
  | connection :: rest, acc => do
    let lls ← lanelinks_go (findall1 connection "laneLink") []
    let connection_id ← attribGet connection "id"
    let incoming_road ← attribGet connection "incomingRoad"
    let connecting_road ← attribGet connection "connectingRoad"
    let contact_point ← attribGet connection "contactPoint"
    let idv ← pyInt connection_id
    let iv ← pyInt incoming_road
    let cv ← pyInt connecting_road
    connections_go rest (acc ++ [{ id := idv, incomingRoad := iv, connectingRoad := cv,
                                   contactPoint := contact_point, laneLinks := lls }])

def junctions_go : List XMLElem → List XODRJunction → Except PyErr (List XODRJunction)
  | [], acc => Except.ok acc
  | junction :: rest, acc => do
    let junction_id ← attribGet junction "id"
    let junction_name ← attribGet junction "name"
    let conns ← connections_go (findall1 junction "connection") []
    let idv ← pyInt junction_id
    let base : XODRJunction := { id := idv, name := junction_name, userData := none,
                                 connections := conns, controllers := [] }
    let xj ← match find2 junction "userData" "vectorJunction" with
      | none => pure base
      | some vector_junction => do
        let jid ← attribGet vector_junction "junctionId"
        pure { base with userData := some { vectorJunction := some { junctionId := jid },
                                            vectorScene := none, vectorSignals := [],
                                            vectorLanes := [], vectorRoad := none } }
    junctions_go rest (acc ++ [xj])

def find_list_of_junctions (root : XMLElem) : Except PyErr (List XODRJunction) :=
  let list_of_xml_junctions := findall1 root "junction"
  if list_of_xml_junctions.length = 0 then Except.ok []
  else junctions_go list_of_xml_junctions []

/- The Filter Engine. -/

/-- Python str.lower() on the ASCII lane-type strings the source compares. -/
def pyLower (s : String) : String :=
  String.mk (s.data.map Char.toLower)

/-- The lane-type predicate of __apply_filter; the in-line comprehension
predicate of __filter_unnessecary_lanes is the same expression. -/
def interested_in_type (ty : String) : Bool :=
  !(["sidewalk", "none", "shoulder", "median"].contains (pyLower ty))

/-- __apply_filter: append the road on the first lane with a relevant type
and stop. -/
def apply_filter (filtered_roads : List XODRRoad) (road : XODRRoad) :
    List XODRRoadLaneSectionLCRLane → List XODRRoad
  | [] => filtered_roads
  | lane :: rest =>
    if interested_in_type lane.type then filtered_roads ++ [road]
    else apply_filter filtered_roads road rest

/-- One element of the comprehension in __filter_unnessecary_roads: the
guard requires a present lane group and that the road was not already
appended (Python `in` compares dataclasses structurally). -/
def filter_groups_step (road : XODRRoad) (fl : List XODRRoad)
    (lane_section : Option XODRRoadLaneSectionLCR) : List XODRRoad :=
  match lane_section with
  | none => fl
  | some ls => if road ∈ fl then fl else apply_filter fl road ls.lanes

/-- The body of the outer loop of __filter_unnessecary_roads for one road:
the comprehension ranges over [left, center, right]. -/
def filter_road_step (fl : List XODRRoad) (road : XODRRoad) : List XODRRoad :=
  match road.lanes with
  | none => fl
  | some lanes =>
    match lanes.laneSection with
    | none => fl
    | some laneSection =>
      filter_groups_step road
        (filter_groups_step road
          (filter_groups_step road fl laneSection.left)
          laneSection.center)
        laneSection.right

/-- __filter_unnessecary_roads: Pass 1.  The Python set of removed ids is
modelled as a list up to membership. -/
def filter_unnessecary_roads (roads : List XODRRoad) : List XODRRoad × List Int :=
  let filtered_roads := roads.foldl filter_road_step []
  let removed_roads := (roads.filter (fun road => decide (road ∉ filtered_roads))).map
    (fun road => road.id)
  (filtered_roads, removed_roads)

/-- The in-place lane pruning done to one road by __filter_unnessecary_lanes. -/
def prune_group (group : Option XODRRoadLaneSectionLCR) : Option XODRRoadLaneSectionLCR :=
  match group with
  | none => none
  | some lane_section =>
    some { lane_section with
           lanes := lane_section.lanes.filter (fun lane => interested_in_type lane.type) }

def prune_road (road : XODRRoad) : XODRRoad :=
  match road.lanes with
  | none => road
  | some lanes =>
    match lanes.laneSection with
    | none => road
    | some laneSection =>
      { road with lanes := some { lanes with laneSection := some { laneSection with
          left := prune_group laneSection.left,
          center := prune_group laneSection.center,
          right := prune_group laneSection.right } } }

/-- __filter_unnessecary_lanes: Pass 2.  Each road is mutated in place and
appended to the output list, so the output is the list of pruned roads. -/
def filter_unnessecary_lanes (roads : List XODRRoad) : List XODRRoad :=
  roads.map prune_road

/-- Pass 2 mutates road objects that are shared with the list owned by the
root entity.  The objects Pass 1 collected are the first occurrence (by
structural equality, which is Python ==) of each surviving road value, so
those positions of the root's list are the ones that show the pruning. -/
def mutate_roads_aux (filtered : List XODRRoad) : List XODRRoad → List XODRRoad → List XODRRoad
  | [], _ => []
  | r :: rest, seen =>
    if r ∈ filtered ∧ r ∉ seen then prune_road r :: mutate_roads_aux filtered rest (seen ++ [r])
    else r :: mutate_roads_aux filtered rest seen

/- map_xml_to_dataclass, written with explicit matches on the collaborator
results; the root.tag None check of the source is unrepresentable here
(tags are strings).  The OpenDRIVE record is built from the same road list
that Pass 2 later mutates, so the returned root carries the mutated list. -/

def map_xml_to_dataclass (root : XMLElem) :
    Except PyErr (Option (OpenDRIVE × List XODRRoad × List Int)) :=
  match find_header_data root with
  | Except.error e => Except.error e
  | Except.ok none => Except.ok none
  | Except.ok (some xodr_header) =>
    match find_list_of_roads root with
    | Except.error e => Except.error e
    | Except.ok roads =>
      if roads.length = 0 then Except.ok none
      else
        match find_list_of_controllers root with
        | Except.error e => Except.error e
        | Except.ok controllers =>
          if controllers.length = 0 then Except.ok none
          else
            match find_list_of_junctions root with
            | Except.error e => Except.error e
            | Except.ok junctions =>
              if junctions.length = 0 then Except.ok none
              else
                let pass1 := filter_unnessecary_roads roads
                let filtered_roads := filter_unnessecary_lanes pass1.1
                let final_roads := mutate_roads_aux pass1.1 roads []
                Except.ok (some (
                  { header := xodr_header, roads := final_roads,
                    controllers := controllers, junctions := junctions },
                  filtered_roads, pass1.2))

/- Claim-side characterisations (following the wording of the spec). -/

/-- A lane group contains a lane of a relevant type. -/
def group_has_relevant (group : Option XODRRoadLaneSectionLCR) : Bool :=
  match group with
  | none => false
  | some ls => ls.lanes.any (fun lane => interested_in_type lane.type)

/-- A road has at least one relevant-type lane across its left, center and
right lane groups (false when it has no lane section at all). -/
def road_has_relevant_lane (road : XODRRoad) : Bool :=
  match road.lanes with
  | none => false
  | some lanes =>
    match lanes.laneSection with
    | none => false
    | some sec =>
      group_has_relevant sec.left || group_has_relevant sec.center || group_has_relevant sec.right

/-- The pipeline returned a (root, filteredRoads, removedRoadIds) triple. -/
def is_ok_triple (r : Except PyErr (Option (OpenDRIVE × List XODRRoad × List Int))) : Bool :=
  match r with
  | Except.ok (some _) => true
  | _ => false

/-- The road list owned by the returned root entity, when a triple came back. -/
def root_roads_of (r : Except PyErr (Option (OpenDRIVE × List XODRRoad × List Int))) :
    Option (List XODRRoad) :=
  match r with
  | Except.ok (some (od, _, _)) => some od.roads
  | _ => none

/- Concrete documents and records used by witnesses and counterexamples. -/

def hdrElem : XMLElem :=
  XMLElem.mk "header"
    [("revMajor", "1"), ("revMinor", "4"), ("version", "1"), ("date", "2024-01-01T00:00:00"),
     ("north", "1.0"), ("south", "0.0"), ("east", "1.0"), ("west", "0.0"),
     ("vendor", "v"), ("name", "doc")]
    [XMLElem.mk "geoReference" [] [] (some "proj"),
     XMLElem.mk "userData" []
       [XMLElem.mk "vectorScene" [("program", "p"), ("version", "1")] [] none] none]
    none

def laneXML (idStr ty : String) : XMLElem :=
  XMLElem.mk "lane" [("id", idStr), ("type", ty), ("level", "false")]
    [XMLElem.mk "userData" [] [] none] none

/-- A road element that builds successfully, whose right lane group holds a
driving lane and a sidewalk lane. -/
def goodRoadElem : XMLElem :=
  XMLElem.mk "road" [("name", "r10"), ("id", "10"), ("length", "5.0"), ("junction", "-1")]
    [XMLElem.mk "planView" [] [XMLElem.mk "geometry" [] [] none] none,
     XMLElem.mk "elevationProfile" []
       [XMLElem.mk "elevation" [("s", "0"), ("a", "0"), ("b", "0"), ("c", "0"), ("d", "0")] [] none]
       none,
     XMLElem.mk "lanes" []
       [XMLElem.mk "laneOffset" [("s", "0"), ("a", "0"), ("b", "0"), ("c", "0"), ("d", "0")] [] none,
        XMLElem.mk "laneSection" [("s", "0")]
          [XMLElem.mk "right" [] [laneXML "-1" "driving", laneXML "-2" "sidewalk"] none] none]
       none]
    none

/-- A road element whose planView subtree is missing, so it fails to build
(all four attributes are present, so no KeyError is raised first). -/
def badRoadElem : XMLElem :=
  XMLElem.mk "road" [("name", "bad"), ("id", "11"), ("length", "1.0"), ("junction", "-1")] [] none

def ctrlElem : XMLElem :=
  XMLElem.mk "controller" [("name", "c"), ("id", "1"), ("sequence", "0")] [] none

def junctElem : XMLElem :=
  XMLElem.mk "junction" [("id", "1"), ("name", "j")] [] none

/-- Document with one good road followed by one road that fails to build. -/
def docGoodThenBad : XMLElem :=
  XMLElem.mk "OpenDRIVE" [] [hdrElem, goodRoadElem, badRoadElem, ctrlElem, junctElem] none

/-- Document whose only road fails to build. -/
def docOnlyBadRoad : XMLElem :=
  XMLElem.mk "OpenDRIVE" [] [hdrElem, badRoadElem, ctrlElem, junctElem] none

/-- Document with one surviving road carrying a prunable sidewalk lane. -/
def docMutate : XMLElem :=
  XMLElem.mk "OpenDRIVE" [] [hdrElem, goodRoadElem, ctrlElem, junctElem] none

/-- A road element with one signal whose s and t attributes differ. -/
def sigRoadElem : XMLElem :=
  XMLElem.mk "road" []
    [XMLElem.mk "signals" []
      [XMLElem.mk "signal" [("id", "7"), ("s", "12.5"), ("t", "3.0"), ("orientation", "+")]
        [XMLElem.mk "userData" [] [] none,
         XMLElem.mk "validity" [("fromLane", "-1"), ("toLane", "1")] [] none]
        none]
      none]
    none

/-- The all-zero geometry segment with neither shape variant set. -/
def zeroGeometry : XODRRoadPlanViewGeometry :=
  { s := pyFloatZero, x := pyFloatZero, y := pyFloatZero, hdg := pyFloatZero,
    length := pyFloatZero, line := none, arc := none }

/-- A road element whose plan view geometry carries a childless arc child
with a curvature attribute and no s attribute on the segment. -/
def arcRoadElem : XMLElem :=
  XMLElem.mk "road" []
    [XMLElem.mk "planView" []
      [XMLElem.mk "geometry" [] [XMLElem.mk "arc" [("curvature", "0.05")] [] none] none]
      none]
    none

/-- A road element whose elevationProfile has one childless elevation child
carrying s, a, b, c, d attributes. -/
def elevRoadElem : XMLElem :=
  XMLElem.mk "road" []
    [XMLElem.mk "elevationProfile" []
      [XMLElem.mk "elevation" [("s", "1"), ("a", "2"), ("b", "3"), ("c", "4"), ("d", "5")] [] none]
      none]
    none

/-- A road element whose elevationProfile has zero elevation children. -/
def elevRoadElemEmpty : XMLElem :=
  XMLElem.mk "road" [] [XMLElem.mk "elevationProfile" [] [] none] none

/-- A road element whose link has a predecessor and a successor, both with
contactPoint attributes. -/
def linkRoadElem : XMLElem :=
  XMLElem.mk "road" []
    [XMLElem.mk "link" []
      [XMLElem.mk "predecessor"
         [("elementType", "road"), ("elementId", "1"), ("contactPoint", "start")] [] none,
       XMLElem.mk "successor"
         [("elementType", "road"), ("elementId", "2"), ("contactPoint", "end")] [] none]
      none]
    none

/-- A lane element whose level attribute is the non-empty string "false". -/
def levelLaneElem : XMLElem :=
  XMLElem.mk "lane" [("id", "-1"), ("type", "driving"), ("level", "false")]
    [XMLElem.mk "userData" [] [] none] none

def emptyUserData : XODRUserData :=
  { vectorJunction := none, vectorScene := none, vectorRoad := none,
    vectorLanes := [], vectorSignals := [] }

def mkTestLane (i : Int) (ty : String) : XODRRoadLaneSectionLCRLane :=
  { id := i, type := ty, level := false, userData := emptyUserData,
    link := { predecessor := none, successor := none }, widths := [], roadMarks := [] }

/-- A built road record with a single lane of the given type in its right
lane group. -/
def mkTestRoad (i : Int) (ty : String) : XODRRoad :=
  { name := "r", length := { mantissa := 1, exponent := 0 }, id := i, junction := -1,
    link := { predecessor := none, successor := none }, type := none,
    planView := { geometry := [] }, elevationProfile := { elevations := [] },
    lateralProfile := { superelevations := [] },
    lanes := some { laneSection := some { s := pyFloatZero, left := none, center := none,
                                          right := some { lanes := [mkTestLane (-1) ty] } },
                    laneOffset := [] },
    objects := none, signals := [], signalReferences := [] }

/- Helper lemmas about the Filter Engine fold. -/

theorem apply_filter_of_no_relevant (fl : List XODRRoad) (road : XODRRoad)
    (lanes : List XODRRoadLaneSectionLCRLane)
    (h : ∀ lane ∈ lanes, interested_in_type lane.type = false) :
    apply_filter fl road lanes = fl := by
  induction lanes with
  | nil => rfl
  | cons lane rest ih =>
    have h1 := h lane (List.mem_cons_self _ _)
    simp only [apply_filter, h1, Bool.false_eq_true, if_false]
    exact ih (fun l hl => h l (List.mem_cons_of_mem _ hl))

theorem apply_filter_of_relevant (fl : List XODRRoad) (road : XODRRoad)
    (lanes : List XODRRoadLaneSectionLCRLane)
    (h : ∃ lane, lane ∈ lanes ∧ interested_in_type lane.type = true) :
    apply_filter fl road lanes = fl ++ [road] := by
  induction lanes with
  | nil => rcases h with ⟨l, hl, _⟩; exact absurd hl (List.not_mem_nil _)
  | cons lane rest ih =>
    by_cases hc : interested_in_type lane.type = true
    · simp only [apply_filter, hc, if_true]
    · simp only [apply_filter, hc, if_false]
      apply ih
      rcases h with ⟨l, hl, hrel⟩
      rcases List.mem_cons.mp hl with rfl | hl2
      · exact absurd hrel hc
      · exact ⟨l, hl2, hrel⟩

theorem group_step_of_mem (road : XODRRoad) (fl : List XODRRoad)
    (g : Option XODRRoadLaneSectionLCR) (h : road ∈ fl) :
    filter_groups_step road fl g = fl := by
  cases g with
  | none => rfl
  | some ls => simp [filter_groups_step, h]

theorem group_step_of_not_rel (road : XODRRoad) (fl : List XODRRoad)
    (g : Option XODRRoadLaneSectionLCR) (h1 : group_has_relevant g = false) :
    filter_groups_step road fl g = fl := by
  cases g with
  | none => rfl
  | some ls =>
    by_cases hm : road ∈ fl
    · simp [filter_groups_step, hm]
    · simp only [filter_groups_step, if_neg hm]
      apply apply_filter_of_no_relevant
      intro lane hl
      simp only [group_has_relevant, List.any_eq_false] at h1
      have h2 := h1 lane hl
      simpa using h2

theorem group_step_of_rel (road : XODRRoad) (fl : List XODRRoad)
    (g : Option XODRRoadLaneSectionLCR) (h1 : group_has_relevant g = true) (hm : road ∉ fl) :
    filter_groups_step road fl g = fl ++ [road] := by
  cases g with
  | none => simp [group_has_relevant] at h1
  | some ls =>
    simp only [filter_groups_step, if_neg hm]
    apply apply_filter_of_relevant
    simpa only [group_has_relevant, List.any_eq_true] using h1

theorem road_step_of_mem (fl : List XODRRoad) (road : XODRRoad) (h : road ∈ fl) :
    filter_road_step fl road = fl := by
  cases hl : road.lanes with
  | none => simp only [filter_road_step, hl]
  | some lanes =>
    cases hs : lanes.laneSection with
    | none => simp only [filter_road_step, hl, hs]
    | some sec =>
      simp only [filter_road_step, hl, hs]
      rw [group_step_of_mem _ _ _ h, group_step_of_mem _ _ _ h, group_step_of_mem _ _ _ h]

theorem road_step_of_not_rel (fl : List XODRRoad) (road : XODRRoad)
    (h : road_has_relevant_lane road = false) :
    filter_road_step fl road = fl := by
  cases hl : road.lanes with
  | none => simp only [filter_road_step, hl]
  | some lanes =>
    cases hs : lanes.laneSection with
    | none => simp only [filter_road_step, hl, hs]
    | some sec =>
      simp only [road_has_relevant_lane, hl, hs] at h
      simp only [filter_road_step, hl, hs]
      have h3 : group_has_relevant sec.left = false ∧ group_has_relevant sec.center = false ∧
          group_has_relevant sec.right = false := by
        simpa [Bool.or_eq_false_iff, and_assoc] using h
      rw [group_step_of_not_rel _ _ _ h3.1, group_step_of_not_rel _ _ _ h3.2.1,
          group_step_of_not_rel _ _ _ h3.2.2]

theorem road_step_of_rel (fl : List XODRRoad) (road : XODRRoad)
    (h : road_has_relevant_lane road = true) (hm : road ∉ fl) :
    filter_road_step fl road = fl ++ [road] := by
  cases hl : road.lanes with
  | none => simp only [road_has_relevant_lane, hl] at h; cases h
  | some lanes =>
    cases hs : lanes.laneSection with
    | none => simp only [road_has_relevant_lane, hl, hs] at h; cases h
    | some sec =>
      simp only [road_has_relevant_lane, hl, hs] at h
      simp only [filter_road_step, hl, hs]
      have hmem : road ∈ fl ++ [road] := List.mem_append_right _ (List.mem_singleton_self _)
      by_cases h1 : group_has_relevant sec.left = true
      · rw [group_step_of_rel _ _ _ h1 hm, group_step_of_mem _ _ _ hmem,
            group_step_of_mem _ _ _ hmem]
      · have h1f : group_has_relevant sec.left = false := by simpa using h1
        rw [group_step_of_not_rel _ _ _ h1f]
        by_cases h2 : group_has_relevant sec.center = true
        · rw [group_step_of_rel _ _ _ h2 hm, group_step_of_mem _ _ _ hmem]
        · have h2f : group_has_relevant sec.center = false := by simpa using h2
          rw [group_step_of_not_rel _ _ _ h2f]
          simp only [h1f, h2f, Bool.false_or] at h
          rw [group_step_of_rel _ _ _ h hm]

theorem road_step_cases (fl : List XODRRoad) (road : XODRRoad) :
    (filter_road_step fl road = fl ∧ (road ∈ fl ∨ road_has_relevant_lane road = false)) ∨
    (road ∉ fl ∧ road_has_relevant_lane road = true ∧
      filter_road_step fl road = fl ++ [road]) := by
  by_cases hm : road ∈ fl
  · exact Or.inl ⟨road_step_of_mem fl road hm, Or.inl hm⟩
  · by_cases hr : road_has_relevant_lane road = true
    · exact Or.inr ⟨hm, hr, road_step_of_rel fl road hr hm⟩
    · have hrf : road_has_relevant_lane road = false := by simpa using hr
      exact Or.inl ⟨road_step_of_not_rel fl road hrf, Or.inr hrf⟩

theorem foldl_step_structure (roads : List XODRRoad) :
    ∀ acc : List XODRRoad, ∃ l, roads.foldl filter_road_step acc = acc ++ l ∧
      l.Sublist roads ∧ (acc.Nodup → (acc ++ l).Nodup) := by
  induction roads with
  | nil =>
    intro acc
    exact ⟨[], by simp, List.Sublist.refl _, fun h => by simpa using h⟩
  | cons r rest ih =>
    intro acc
    rcases road_step_cases acc r with ⟨hstep, _⟩ | ⟨hnm, _, hstep⟩
    · rcases ih acc with ⟨l, h1, h2, h3⟩
      refine ⟨l, ?_, h2.cons _, h3⟩
      rw [List.foldl_cons, hstep]
      exact h1
    · rcases ih (acc ++ [r]) with ⟨l, h1, h2, h3⟩
      refine ⟨r :: l, ?_, h2.cons₂ _, ?_⟩
      · rw [List.foldl_cons, hstep, h1, List.append_assoc]
        rfl
      · intro hacc
        have hnd : (acc ++ [r]).Nodup := by
          rw [List.nodup_append]
          refine ⟨hacc, List.nodup_singleton _, ?_⟩
          intro x hx hx1
          rw [List.mem_singleton] at hx1
          subst hx1
          exact hnm hx
        have h4 := h3 hnd
        rw [List.append_assoc] at h4
        simpa using h4

theorem mem_step_iff (acc : List XODRRoad) (r0 r : XODRRoad) :
    r ∈ filter_road_step acc r0 ↔ r ∈ acc ∨ (r = r0 ∧ road_has_relevant_lane r0 = true) := by
  rcases road_step_cases acc r0 with ⟨hstep, hside⟩ | ⟨hnm, hrel, hstep⟩
  · rw [hstep]
    constructor
    · exact Or.inl
    · rintro (hm | ⟨rfl, hr⟩)
      · exact hm
      · rcases hside with hm0 | hf
        · exact hm0
        · rw [hf] at hr; cases hr
  · rw [hstep]
    simp only [List.mem_append, List.mem_singleton]
    constructor
    · rintro (hm | rfl)
      · exact Or.inl hm
      · exact Or.inr ⟨rfl, hrel⟩
    · rintro (hm | ⟨rfl, _⟩)
      · exact Or.inl hm
      · exact Or.inr rfl

theorem mem_foldl_step (roads : List XODRRoad) :
    ∀ (acc : List XODRRoad) (r : XODRRoad),
      r ∈ roads.foldl filter_road_step acc ↔
        r ∈ acc ∨ (r ∈ roads ∧ road_has_relevant_lane r = true) := by
  induction roads with
  | nil => intro acc r; simp
  | cons r0 rest ih =>
    intro acc r
    rw [List.foldl_cons, ih (filter_road_step acc r0) r, mem_step_iff]
    constructor
    · rintro ((hm | ⟨rfl, hr⟩) | ⟨hm, hr⟩)
      · exact Or.inl hm
      · exact Or.inr ⟨List.mem_cons_self _ _, hr⟩
      · exact Or.inr ⟨List.mem_cons_of_mem _ hm, hr⟩
    · rintro (hm | ⟨hm, hr⟩)
      · exact Or.inl (Or.inl hm)
      · rcases List.mem_cons.mp hm with rfl | hm2
        · exact Or.inl (Or.inr ⟨rfl, hr⟩)
        · exact Or.inr ⟨hm2, hr⟩

theorem mem_removed_iff (roads : List XODRRoad) (i : Int) :
    i ∈ (filter_unnessecary_roads roads).2 ↔
      ∃ r, r ∈ roads ∧ r ∉ (filter_unnessecary_roads roads).1 ∧ r.id = i := by
  have hfst : (filter_unnessecary_roads roads).1 = roads.foldl filter_road_step [] := rfl
  have hsnd : (filter_unnessecary_roads roads).2 =
      (roads.filter (fun road => decide (road ∉ roads.foldl filter_road_step []))).map
        (fun road => road.id) := rfl
  rw [hsnd, hfst]
  simp only [List.mem_map, List.mem_filter, decide_eq_true_eq]
  constructor
  · rintro ⟨r, ⟨hr, hnf⟩, rfl⟩
    exact ⟨r, hr, hnf, rfl⟩
  · rintro ⟨r, hr, hnf, rfl⟩
    exact ⟨r, ⟨hr, hnf⟩, rfl⟩

theorem mem_mutate_roads_aux (filtered : List XODRRoad) :
    ∀ (l seen : List XODRRoad) (r : XODRRoad), r ∈ mutate_roads_aux filtered l seen →
      r ∈ l ∨ ∃ r0, r0 ∈ l ∧ r = prune_road r0 := by
  intro l
  induction l with
  | nil => intro seen r h; exact absurd h (List.not_mem_nil _)
  | cons a rest ih =>
    intro seen r h
    unfold mutate_roads_aux at h
    by_cases hc : a ∈ filtered ∧ a ∉ seen
    · rw [if_pos hc] at h
      rcases List.mem_cons.mp h with rfl | h2
      · exact Or.inr ⟨a, List.mem_cons_self _ _, rfl⟩
      · rcases ih _ r h2 with h3 | ⟨r0, hr0, hpr⟩
        · exact Or.inl (List.mem_cons_of_mem _ h3)
        · exact Or.inr ⟨r0, List.mem_cons_of_mem _ hr0, hpr⟩
    · rw [if_neg hc] at h
      rcases List.mem_cons.mp h with rfl | h2
      · exact Or.inl (List.mem_cons_self _ _)
      · rcases ih _ r h2 with h3 | ⟨r0, hr0, hpr⟩
        · exact Or.inl (List.mem_cons_of_mem _ h3)
        · exact Or.inr ⟨r0, List.mem_cons_of_mem _ hr0, hpr⟩

theorem filter_self_idem {α : Type} (p : α → Bool) (l : List α) :
    (l.filter p).filter p = l.filter p := by
  induction l with
  | nil => rfl
  | cons a rest ih =>
    cases h : p a
    · simp [List.filter_cons, h, ih]
    · simp [List.filter_cons, h, ih]

theorem prune_group_idem (g : Option XODRRoadLaneSectionLCR) :
    prune_group (prune_group g) = prune_group g := by
  cases g with
  | none => rfl
  | some ls => simp [prune_group, filter_self_idem]

theorem prune_road_idem (road : XODRRoad) : prune_road (prune_road road) = prune_road road := by
  cases hl : road.lanes with
  | none => simp only [prune_road, hl]
  | some lanes =>
    cases hs : lanes.laneSection with
    | none => simp only [prune_road, hl, hs]
    | some sec => simp only [prune_road, hl, hs, prune_group_idem]

/- C1 -/

/-- C1 counterexample: docGoodThenBad contains two road elements, only the
first builds (the second lacks its planView subtree, so the road loop
truncates), and map_xml_to_dataclass still returns a
(root, filteredRoads, removedRoadIds) triple — contradicting the claim
that any individual road-build failure makes the whole document fail. -/
theorem C1_truncation_returns_triple :
    (findall1 docGoodThenBad "road").length = 2 ∧
    (find_list_of_roads docGoodThenBad).toOption.map List.length = some 1 ∧
    is_ok_triple (map_xml_to_dataclass docGoodThenBad) = true :=
  ⟨by decide, by decide, by decide⟩

/-- C1 (amended): the document-level result is a failure only when the
road-building loop hands back an empty list, i.e. when no road was built
before the failing one; whenever the truncated list is empty the pipeline
returns no triple. -/
theorem C1_empty_road_list_fails (root : XMLElem)
    (res : Option (OpenDRIVE × List XODRRoad × List Int))
    (hroads : find_list_of_roads root = Except.ok [])
    (hmap : map_xml_to_dataclass root = Except.ok res) : res = none := by
  rcases hh : find_header_data root with e | ho
  · have hme : map_xml_to_dataclass root = Except.error e := by
      unfold map_xml_to_dataclass
      rw [hh]
    rw [hme] at hmap
    cases hmap
  · have hmn : map_xml_to_dataclass root = Except.ok none := by
      unfold map_xml_to_dataclass
      cases ho with
      | none => rw [hh]
      | some hdr =>
        rw [hh, hroads]
        rfl
    rw [hmn] at hmap
    injection hmap with h
    exact h.symm

/-- C1 witness: docOnlyBadRoad satisfies the hypotheses of
C1_empty_road_list_fails with res = none. -/
theorem C1_empty_road_list_fails_witness :
    find_list_of_roads docOnlyBadRoad = Except.ok [] ∧
    map_xml_to_dataclass docOnlyBadRoad = Except.ok none ∧
    (none : Option (OpenDRIVE × List XODRRoad × List Int)) = none :=
  ⟨rfl, rfl, C1_empty_road_list_fails docOnlyBadRoad none rfl rfl⟩

/- C2 -/

/-- C2: the signal builder stores the parse of the t attribute ("3.0")
into the record field s and the parse of the s attribute ("12.5") into the
record field t — the two reads are swapped, so the claimed round-trip
(s field = s attribute) fails whenever the two attributes differ. -/
theorem C2_signal_s_t_swapped :
    (get_road_signals sigRoadElem false).toOption.map (fun l => l.map (fun sg => (sg.s, sg.t))) =
      some [({ mantissa := 30, exponent := 1 }, ({ mantissa := 125, exponent := 1 } : PyFloat))] ∧
    pyFloat "12.5" = Except.ok { mantissa := 125, exponent := 1 } ∧
    pyFloat "3.0" = Except.ok { mantissa := 30, exponent := 1 } :=
  ⟨by decide, rfl, rfl⟩

/- C3 -/

/-- C3: for a geometry element with no s attribute and a childless
arc child carrying curvature="0.05", the built segment has all five
positional fields 0.0 as claimed, but its arc variant is None rather than
an arc with curvature 0.05: the source only sets the variant when the arc
element has child elements, and reads curvature from those children. -/
theorem C3_arc_variant_dropped :
    get_road_plan_view arcRoadElem = Except.ok (some { geometry := [zeroGeometry] }) ∧
    zeroGeometry.arc = none ∧ zeroGeometry.s = pyFloatZero ∧ zeroGeometry.x = pyFloatZero ∧
    zeroGeometry.y = pyFloatZero ∧ zeroGeometry.hdg = pyFloatZero ∧
    zeroGeometry.length = pyFloatZero ∧
    pyFloat "0.05" = Except.ok { mantissa := 5, exponent := 2 } :=
  ⟨rfl, rfl, rfl, rfl, rfl, rfl, rfl, rfl⟩

/- C4 -/

/-- C4: a road whose elevationProfile has one elevation child carrying
s="1" a="2" b="3" c="4" d="5" and no child elements yields an EMPTY
elevation list (the source iterates the children of the first elevation
element instead of the elevation elements), not the one claimed record;
and an elevationProfile with zero elevation children raises TypeError
(iterating None) instead of building. -/
theorem C4_elevation_children_ignored :
    get_road_elevation_profile elevRoadElem = Except.ok (some { elevations := [] }) ∧
    get_road_elevation_profile elevRoadElemEmpty = Except.error PyErr.typeError :=
  ⟨rfl, rfl⟩

/- C5 -/

/-- C5 (amended): the surviving road list is a subsequence of the input in
the original order with no road duplicated, and every input road appears
in the surviving list or has its identifier in the removed set; when
identifiers determine roads (pairwise-distinct ids), exactly one of the
two holds.  Without that restriction both can hold at once — see the
counterexample. -/
theorem C5_filter_partition (roads : List XODRRoad)
    (hids : ∀ x ∈ roads, ∀ y ∈ roads, x.id = y.id → x = y) :
    (filter_unnessecary_roads roads).1.Sublist roads ∧
    (filter_unnessecary_roads roads).1.Nodup ∧
    (∀ r ∈ roads, r ∈ (filter_unnessecary_roads roads).1 ∨
      r.id ∈ (filter_unnessecary_roads roads).2) ∧
    (∀ r ∈ roads, ¬(r ∈ (filter_unnessecary_roads roads).1 ∧
      r.id ∈ (filter_unnessecary_roads roads).2)) := by
  have hfst : (filter_unnessecary_roads roads).1 = roads.foldl filter_road_step [] := rfl
  rcases foldl_step_structure roads [] with ⟨l, h1, h2, h3⟩
  rw [List.nil_append] at h1
  have hsub : (filter_unnessecary_roads roads).1.Sublist roads := by
    rw [hfst, h1]; exact h2
  have hnd : (filter_unnessecary_roads roads).1.Nodup := by
    rw [hfst, h1]
    have h4 := h3 List.nodup_nil
    simpa using h4
  refine ⟨hsub, hnd, ?_, ?_⟩
  · intro r hr
    by_cases hf : r ∈ (filter_unnessecary_roads roads).1
    · exact Or.inl hf
    · right
      rw [mem_removed_iff]
      rw [hfst] at hf
      exact ⟨r, hr, hf, rfl⟩
  · rintro r hr ⟨hf, hrem⟩
    rw [mem_removed_iff] at hrem
    rcases hrem with ⟨x, hx, hxnf, hxid⟩
    have hxr : x = r := hids x hx r hr hxid
    subst hxr
    rw [hfst] at hf
    exact hxnf hf

/-- C5 witness: C5_filter_partition applied to a two-road list with
distinct identifiers. -/
theorem C5_filter_partition_witness :
    (∀ x ∈ [mkTestRoad 1 "driving", mkTestRoad 2 "sidewalk"],
      ∀ y ∈ [mkTestRoad 1 "driving", mkTestRoad 2 "sidewalk"], x.id = y.id → x = y) ∧
    ((filter_unnessecary_roads [mkTestRoad 1 "driving", mkTestRoad 2 "sidewalk"]).1.Sublist
        [mkTestRoad 1 "driving", mkTestRoad 2 "sidewalk"] ∧
      (filter_unnessecary_roads [mkTestRoad 1 "driving", mkTestRoad 2 "sidewalk"]).1.Nodup ∧
      (∀ r ∈ [mkTestRoad 1 "driving", mkTestRoad 2 "sidewalk"],
        r ∈ (filter_unnessecary_roads [mkTestRoad 1 "driving", mkTestRoad 2 "sidewalk"]).1 ∨
        r.id ∈ (filter_unnessecary_roads [mkTestRoad 1 "driving", mkTestRoad 2 "sidewalk"]).2) ∧
      (∀ r ∈ [mkTestRoad 1 "driving", mkTestRoad 2 "sidewalk"],
        ¬(r ∈ (filter_unnessecary_roads [mkTestRoad 1 "driving", mkTestRoad 2 "sidewalk"]).1 ∧
          r.id ∈ (filter_unnessecary_roads [mkTestRoad 1 "driving", mkTestRoad 2 "sidewalk"]).2))) :=
  ⟨by decide, C5_filter_partition _ (by decide)⟩

/-- C5 counterexample: with two roads sharing the identifier 1 (the first
relevant, the second not), the first road both appears in the surviving
list and has its identifier in the removed set, so "exactly one of the
two holds" fails as stated. -/
theorem C5_exactly_one_fails :
    mkTestRoad 1 "driving" ∈
      (filter_unnessecary_roads [mkTestRoad 1 "driving", mkTestRoad 1 "sidewalk"]).1 ∧
    (mkTestRoad 1 "driving").id ∈
      (filter_unnessecary_roads [mkTestRoad 1 "driving", mkTestRoad 1 "sidewalk"]).2 :=
  ⟨by decide, by decide⟩

/- C6 -/

/-- C6: after Pass 1 every surviving road has a lane of a relevant type
across its lane groups, and every removed identifier comes from an input
road with no relevant-type lane (or no lane section, which
road_has_relevant_lane also maps to false). -/
theorem C6_filter_consistency (roads : List XODRRoad) :
    (∀ r ∈ (filter_unnessecary_roads roads).1, road_has_relevant_lane r = true) ∧
    (∀ i ∈ (filter_unnessecary_roads roads).2,
      ∃ r, r ∈ roads ∧ r.id = i ∧ road_has_relevant_lane r = false) := by
  have hfst : (filter_unnessecary_roads roads).1 = roads.foldl filter_road_step [] := rfl
  constructor
  · intro r hr
    rw [hfst] at hr
    rcases (mem_foldl_step roads [] r).mp hr with h | ⟨_, h⟩
    · exact absurd h (List.not_mem_nil _)
    · exact h
  · intro i hi
    rw [mem_removed_iff] at hi
    rcases hi with ⟨r, hr, hnf, rfl⟩
    refine ⟨r, hr, rfl, ?_⟩
    by_contra hrel
    have hrel2 : road_has_relevant_lane r = true := by simpa using hrel
    apply hnf
    rw [hfst]
    exact (mem_foldl_step roads [] r).mpr (Or.inr ⟨hr, hrel2⟩)

/-- C6 witness: C6_filter_consistency applied to a two-road list, checking
the surviving driving road and the removed sidewalk road id 2. -/
theorem C6_filter_consistency_witness :
    road_has_relevant_lane (mkTestRoad 1 "driving") = true ∧
    (∃ r, r ∈ [mkTestRoad 1 "driving", mkTestRoad 2 "sidewalk"] ∧ r.id = (2 : Int) ∧
      road_has_relevant_lane r = false) :=
  ⟨(C6_filter_consistency [mkTestRoad 1 "driving", mkTestRoad 2 "sidewalk"]).1
      (mkTestRoad 1 "driving") (by decide),
   (C6_filter_consistency [mkTestRoad 1 "driving", mkTestRoad 2 "sidewalk"]).2
      2 (by decide)⟩

/- C8 -/

/-- C8: Filter Engine Pass 2 is idempotent — running
__filter_unnessecary_lanes on its own output changes nothing, because the
lane lists it produces contain no lane of an irrelevant type. -/
theorem C8_pass2_idempotent (roads : List XODRRoad) :
    filter_unnessecary_lanes (filter_unnessecary_lanes roads) = filter_unnessecary_lanes roads := by
  induction roads with
  | nil => rfl
  | cons r rest ih =>
    simp only [filter_unnessecary_lanes, List.map_cons] at ih ⊢
    rw [prune_road_idem]
    rw [ih]

/- C7 -/

/-- C7 counterexample: for docMutate the road list reachable from the
returned root entity differs from the list the Road Builder produced —
Pass 2 pruned the surviving road's sidewalk lane in place, so not every
record reachable from the root is unchanged from the moment it was
built. -/
theorem C7_root_roads_mutated :
    root_roads_of (map_xml_to_dataclass docMutate) ≠ (find_list_of_roads docMutate).toOption := by
  decide

/-- C7 (amended): in a successful run, every road reachable from the
returned root entity is either a built road unchanged (roads dropped by
Pass 1 keep their lane lists) or the in-place lane-pruned version of a
built road (the first occurrence of each road value that survived
Pass 1). -/
theorem C7_roads_built_or_pruned (root : XMLElem) (built : List XODRRoad)
    (od : OpenDRIVE) (fr : List XODRRoad) (rem : List Int)
    (hb : find_list_of_roads root = Except.ok built)
    (hm : map_xml_to_dataclass root = Except.ok (some (od, fr, rem))) :
    ∀ r ∈ od.roads, r ∈ built ∨ ∃ r0, r0 ∈ built ∧ r = prune_road r0 := by
  rcases hh : find_header_data root with e | ho
  · have hx : map_xml_to_dataclass root = Except.error e := by
      unfold map_xml_to_dataclass
      rw [hh]
    rw [hx] at hm
    cases hm
  · cases ho with
    | none =>
      have hx : map_xml_to_dataclass root = Except.ok none := by
        unfold map_xml_to_dataclass
        rw [hh]
      rw [hx] at hm
      injection hm with h
      cases h
    | some hdr =>
      by_cases h1 : built.length = 0
      · have hx : map_xml_to_dataclass root = Except.ok none := by
          unfold map_xml_to_dataclass
          simp only [hh, hb, if_pos h1]
        rw [hx] at hm
        injection hm with h
        cases h
      · rcases hc : find_list_of_controllers root with e | cs
        · have hx : map_xml_to_dataclass root = Except.error e := by
            unfold map_xml_to_dataclass
            simp only [hh, hb, if_neg h1, hc]
          rw [hx] at hm
          cases hm
        · by_cases h2 : cs.length = 0
          · have hx : map_xml_to_dataclass root = Except.ok none := by
              unfold map_xml_to_dataclass
              simp only [hh, hb, if_neg h1, hc, if_pos h2]
            rw [hx] at hm
            injection hm with h
            cases h
          · rcases hj : find_list_of_junctions root with e | js
            · have hx : map_xml_to_dataclass root = Except.error e := by
                unfold map_xml_to_dataclass
                simp only [hh, hb, if_neg h1, hc, if_neg h2, hj]
              rw [hx] at hm
              cases hm
            · by_cases h3 : js.length = 0
              · have hx : map_xml_to_dataclass root = Except.ok none := by
                  unfold map_xml_to_dataclass
                  simp only [hh, hb, if_neg h1, hc, if_neg h2, hj, if_pos h3]
                rw [hx] at hm
                injection hm with h
                cases h
              · have hx : map_xml_to_dataclass root = Except.ok (some (
                    ({ header := hdr,
                       roads := mutate_roads_aux (filter_unnessecary_roads built).1 built [],
                       controllers := cs, junctions := js } : OpenDRIVE),
                    filter_unnessecary_lanes (filter_unnessecary_roads built).1,
                    (filter_unnessecary_roads built).2)) := by
                  unfold map_xml_to_dataclass
                  simp only [hh, hb, if_neg h1, hc, if_neg h2, hj, if_neg h3]
                rw [hx] at hm
                injection hm with h
                injection h with h
                simp only [Prod.mk.injEq] at h
                obtain ⟨hod, hfr, hrem⟩ := h
                subst hod
                intro r hr
                exact mem_mutate_roads_aux _ built [] r hr

/-- C7 witness: the amended statement instantiated on docMutate. -/
theorem C7_roads_built_or_pruned_witness :
    ∃ built od fr rem,
      find_list_of_roads docMutate = Except.ok built ∧
      map_xml_to_dataclass docMutate = Except.ok (some (od, fr, rem)) ∧
      ∀ r ∈ od.roads, r ∈ built ∨ ∃ r0, r0 ∈ built ∧ r = prune_road r0 := by
  refine ⟨_, _, _, _, rfl, rfl, ?_⟩
  exact C7_roads_built_or_pruned docMutate _ _ _ _ rfl rfl

/- C9 -/

/-- A link side built with an empty contact-point string always carries
contactPoint None; the successor side is always built this way because the
successor contact-point variable is never assigned in the source. -/
theorem link_side_build_empty_contact (et eid : String) (o : Option XODRRoadLinkPredSucc)
    (h : link_side_build et eid "" = Except.ok o) :
    ∀ ps, o = some ps → ps.contactPoint = none := by
  intro ps hps
  unfold link_side_build at h
  by_cases he : eid ≠ ""
  · rw [if_pos he] at h
    rcases hp : pyInt eid with e | idv
    · simp only [hp] at h
      exact Except.noConfusion h
    · simp only [hp] at h
      injection h with h
      rw [← h] at hps
      injection hps with hps
      rw [← hps]
      rfl
  · rw [if_neg he] at h
    injection h with h
    rw [← h] at hps
    cases hps

/-- C9: the built successor record's contactPoint is None for all inputs
(its source variable is initialised to "" and never reassigned), and when
both a predecessor and a successor are present and the successor carries a
contactPoint attribute, that value ends up in the predecessor record's
contactPoint field, because the source assigns it to the predecessor
contact-point variable. -/
theorem C9_link_contact_points (road : XMLElem) (link : XODRRoadLink)
    (h : get_road_link road = Except.ok link) :
    (∀ ps, link.successor = some ps → ps.contactPoint = none) ∧
    (∀ p sq pt pid st sid cp,
      find2 road "link" "predecessor" = some p →
      attribGet p "elementType" = Except.ok pt →
      attribGet p "elementId" = Except.ok pid →
      find2 road "link" "successor" = some sq →
      attribGet sq "elementType" = Except.ok st →
      attribGet sq "elementId" = Except.ok sid →
      getAttr? sq "contactPoint" = some cp → cp ≠ "" →
      ∀ pr, link.predecessor = some pr → pr.contactPoint = some cp) := by
  constructor
  · intro ps hps
    unfold get_road_link at h
    rcases h1 : link_pred_fields road with e | ⟨pet, pid0, pcp0⟩
    · simp only [h1] at h
      exact Except.noConfusion h
    · simp only [h1] at h
      rcases h2 : link_succ_fields road pcp0 with e | ⟨set0, sid0, pcp⟩
      · simp only [h2] at h
        exact Except.noConfusion h
      · simp only [h2] at h
        rcases h3 : link_side_build pet pid0 pcp with e | predv
        · simp only [h3] at h
          exact Except.noConfusion h
        · simp only [h3] at h
          rcases h4 : link_side_build set0 sid0 "" with e | succv
          · simp only [h4] at h
            exact Except.noConfusion h
          · simp only [h4] at h
            injection h with h
            rw [← h] at hps
            exact link_side_build_empty_contact set0 sid0 succv h4 ps hps
  · intro p sq pt pid st sid cp hfp hat1 hat2 hfs hat3 hat4 hcp hcpne pr hpr
    have hp : link_pred_fields road = Except.ok (pt, pid,
        match getAttr? p "contactPoint" with | some v => v | none => "") := by
      unfold link_pred_fields
      simp only [hfp, hat1, hat2]
    have hs : ∀ x : String, link_succ_fields road x = Except.ok (st, sid, cp) := by
      intro x
      unfold link_succ_fields
      simp only [hfs, hat3, hat4, hcp]
    unfold get_road_link at h
    simp only [hp, hs] at h
    by_cases hpidne : pid ≠ ""
    · rcases hpy : pyInt pid with e | ipid
      · have hsb : link_side_build pt pid cp = Except.error e := by
          unfold link_side_build
          rw [if_pos hpidne]
          simp only [hpy]
        simp only [hsb] at h
        exact Except.noConfusion h
      · have hsb : link_side_build pt pid cp = Except.ok (some
            { elementType := pt, elementId := ipid, contactPoint := some cp }) := by
          unfold link_side_build
          rw [if_pos hpidne]
          simp only [hpy, if_pos hcpne]
        simp only [hsb] at h
        rcases h4 : link_side_build st sid "" with e | succv
        · simp only [h4] at h
          exact Except.noConfusion h
        · simp only [h4] at h
          injection h with h
          rw [← h] at hpr
          injection hpr with hpr
          rw [← hpr]
    · have hsb : link_side_build pt pid cp = Except.ok none := by
        unfold link_side_build
        rw [if_neg hpidne]
      simp only [hsb] at h
      rcases h4 : link_side_build st sid "" with e | succv
      · simp only [h4] at h
        exact Except.noConfusion h
      · simp only [h4] at h
        injection h with h
        rw [← h] at hpr
        cases hpr

/-- C9 witness: for linkRoadElem (predecessor contactPoint "start",
successor contactPoint "end") the built successor carries contactPoint
None and the built predecessor carries contactPoint "end". -/
theorem C9_link_contact_points_witness :
    ∃ link, get_road_link linkRoadElem = Except.ok link ∧
      (∀ ps, link.successor = some ps → ps.contactPoint = none) ∧
      (∀ pr, link.predecessor = some pr → pr.contactPoint = some "end") := by
  refine ⟨_, rfl, ?_, ?_⟩
  · exact (C9_link_contact_points linkRoadElem _ rfl).1
  · intro pr hpr
    exact (C9_link_contact_points linkRoadElem _ rfl).2
      (XMLElem.mk "predecessor"
        [("elementType", "road"), ("elementId", "1"), ("contactPoint", "start")] [] none)
      (XMLElem.mk "successor"
        [("elementType", "road"), ("elementId", "2"), ("contactPoint", "end")] [] none)
      "road" "1" "road" "2" "end" rfl rfl rfl rfl rfl rfl rfl (by decide) pr hpr

/- C10 -/

/-- C10: the level flag of every lane built by the Lane Section Builder is
the Python truthiness of the raw level attribute string — the negation of
string emptiness — so any non-empty string, including "false" and "0",
yields True. -/
theorem C10_level_is_truthiness (lcr_lane : XMLElem) (l : XODRRoadLaneSectionLCRLane)
    (v : String)
    (h : build_lcr_lane lcr_lane = Except.ok (some l))
    (hv : getAttr? lcr_lane "level" = some v) :
    l.level = !v.isEmpty := by
  have hl : attribGet lcr_lane "level" = Except.ok v := by
    unfold attribGet
    rw [hv]
  unfold build_lcr_lane at h
  rcases h1 : attribGet lcr_lane "id" with e | lane_id
  · simp only [h1] at h
    exact Except.noConfusion h
  · simp only [h1] at h
    rcases h2 : attribGet lcr_lane "type" with e | lane_type
    · simp only [h2] at h
      exact Except.noConfusion h
    · simp only [h2, hl] at h
      rcases h4 : find1 lcr_lane "userData" with _ | ud
      · simp only [h4] at h
        injection h with h
        cases h
      · simp only [h4] at h
        rcases h5 : build_vector_lanes (findall1 ud "vectorLanes") [] with e | vls
        · simp only [h5] at h
          exact Except.noConfusion h
        · simp only [h5] at h
          rcases h6 : build_lane_widths (findall1 lcr_lane "width") [] with e | ws
          · simp only [h6] at h
            exact Except.noConfusion h
          · simp only [h6] at h
            rcases h7 : build_road_marks (findall1 lcr_lane "roadMark") [] with e | ms
            · simp only [h7] at h
              exact Except.noConfusion h
            · simp only [h7] at h
              rcases h8 : build_lane_link lcr_lane with e | ll
              · simp only [h8] at h
                exact Except.noConfusion h
              · simp only [h8] at h
                rcases h9 : pyInt lane_id with e | idv
                · simp only [h9] at h
                  exact Except.noConfusion h
                · simp only [h9] at h
                  injection h with h
                  injection h with h
                  rw [← h]
                  rfl

/-- C10 witness: a lane element with level="false" builds with its level
flag True, since "false" is a non-empty string. -/
theorem C10_level_is_truthiness_witness :
    ∃ l, build_lcr_lane levelLaneElem = Except.ok (some l) ∧ l.level = true := by
  refine ⟨_, rfl, ?_⟩
  have hlev := C10_level_is_truthiness levelLaneElem _ "false" rfl rfl
  rw [hlev]
  decide
